import Mathlib

/-
Verification of the registry client module (pkg/kbld/registry/registry.go):
a shallow embedding of the configuration type, the certificate-pool builder,
the HTTP transport factory, the fixed retry executor, and the registry-client
facade operations, together with theorems about their behavior.

External collaborators (the file system, the x509 certificate parser, the
go-containerregistry name-parsing and remote layers) are modelled as explicit
function-typed parameters, so that every definition is a pure function of the
configuration and of those collaborators, exactly mirroring the Go control
flow.
-/

namespace KbldRegistry

/-- Opts from the source: the configuration for constructing a Registry.
The Go zero value of each field models an omitted field. -/
structure Opts where
  CACertPaths : List String
  VerifyCerts : Bool
  Insecure : Bool
  EnvAuthPrefix : String
deriving DecidableEq, Repr

/-- The Go zero value of Opts: every field omitted (empty list, false, false,
empty string). -/
def Opts.zero : Opts := ⟨[], false, false, ""⟩

/-- Abstract content of a CA-certificate file. The field validPEM abstracts
whether x509.CertPool.AppendCertsFromPEM finds at least one valid certificate
in the file's bytes (the x509 parser is an external collaborator). -/
structure FileData where
  content : String
  validPEM : Bool
deriving DecidableEq, Repr

/-- A certificate pool: the list of certificate batches appended to it. -/
structure CertPool where
  certs : List FileData
deriving DecidableEq, Repr

/-- x509.NewCertPool: the empty pool. -/
def CertPool.new : CertPool := ⟨[]⟩

/-- CertPool.AppendCertsFromPEM: returns the grown pool and whether at least
one certificate was appended. -/
def CertPool.appendCertsFromPEM (p : CertPool) (d : FileData) : CertPool × Bool :=
  if d.validPEM then (⟨p.certs ++ [d]⟩, true) else (p, false)

/-- The http.Transport value built by newHTTPTransport, with the fixed
timeouts (in seconds), pooling parameters, proxy behavior, and the TLS
client configuration. -/
structure Transport where
  proxyFromEnvironment : Bool
  dialTimeoutSec : Nat
  dialKeepAliveSec : Nat
  dialDualStack : Bool
  maxIdleConns : Nat
  idleConnTimeoutSec : Nat
  tlsHandshakeTimeoutSec : Nat
  responseHeaderTimeoutSec : Nat
  expectContinueTimeoutSec : Nat
  rootCAs : CertPool
  insecureSkipVerify : Bool
deriving DecidableEq, Repr

/-- Message built at registry.go:162 when a CA certificate file cannot be
read (the ReadError): names the path and the underlying cause. -/
def readCAMsg (path cause : String) : String :=
  "Reading CA certificates from \x27" ++ path ++ "\x27: " ++ cause

/-- Message built at registry.go:164 when AppendCertsFromPEM finds no valid
certificate (the ParseError): names the path. -/
def parseCAMsg (path : String) : String :=
  "Adding CA certificates from \x27" ++ path ++ "\x27: failed"

/-- The loop of newHTTPTransport (registry.go:160-166): for each path in
order, read the file (failing with the ReadError on a read failure), append
its certificates to the pool (failing with the ParseError when no valid
certificate is found), and stop at the first error. The file system is the
explicit parameter readFile (os.ReadFile). -/
def addCACerts (readFile : String → Except String FileData) :
    CertPool → List String → Except String CertPool
  | pool, [] => Except.ok pool
  | pool, path :: rest =>
    match readFile path with
    | Except.error e => Except.error (readCAMsg path e)
    | Except.ok certs =>
      match pool.appendCertsFromPEM certs with
      | (pool2, true) => addCACerts readFile pool2 rest
      | (_, false) => Except.error (parseCAMsg path)

/-- newHTTPTransport (registry.go:153-190): seed the pool from the system
trust store (or an empty pool when the system store is unavailable, modelled
by systemCertPool = none), append the user-supplied CA files, and build the
transport with the fixed parameters. InsecureSkipVerify is set exactly when
opts.VerifyCerts == false. -/
def newHTTPTransport (opts : Opts) (readFile : String → Except String FileData)
    (systemCertPool : Option CertPool) : Except String Transport :=
  let pool := match systemCertPool with
    | some p => p
    | none => CertPool.new
  let poolResult :=
    if opts.CACertPaths.length > 0 then addCACerts readFile pool opts.CACertPaths
    else Except.ok pool
  match poolResult with
  | Except.error e => Except.error e
  | Except.ok pool2 =>
    Except.ok {
      proxyFromEnvironment := true
      dialTimeoutSec := 30
      dialKeepAliveSec := 30
      dialDualStack := true
      maxIdleConns := 100
      idleConnTimeoutSec := 90
      tlsHandshakeTimeoutSec := 10
      responseHeaderTimeoutSec := 10
      expectContinueTimeoutSec := 1
      rootCAs := pool2
      insecureSkipVerify := (opts.VerifyCerts == false)
    }

/-- The keychain held by the client: a multi-keychain of the env keychain
(derived from the configured prefix string) and the default keychain. Its
internals are outside this module's source; only the prefix it was built
from is recorded. -/
structure Keychain where
  envPrefixStr : String
deriving DecidableEq, Repr

/-- Registry (registry.go:28-31): the client facade. It holds the transport
and keychain (the remote options) and the reference-parsing options,
recorded as the single flag refInsecure (whether regname.Insecure is in
refOpts). -/
structure Registry where
  transport : Transport
  keychain : Keychain
  refInsecure : Bool
deriving DecidableEq, Repr

/-- NewRegistry (registry.go:33-52): build the transport (aborting client
creation on error), derive the reference options from opts.Insecure, and
return the client. -/
def NewRegistry (opts : Opts) (readFile : String → Except String FileData)
    (systemCertPool : Option CertPool) : Except String Registry :=
  match newHTTPTransport opts readFile systemCertPool with
  | Except.error e => Except.error e
  | Except.ok t =>
    Except.ok { transport := t, keychain := ⟨opts.EnvAuthPrefix⟩,
                refInsecure := opts.Insecure }

/-- Go fmt rendering of an error that may be nil (unreachable in retry,
since the loop always runs at least once before the aggregate error is
built). -/
def errStr : Option String → String
  | some e => e
  | none => "%!s(<nil>)"

/-- Outcome of one retry execution: the returned result, the number of
1-second sleeps performed, and the final state of the wrapped operation
(used to count how often the operation was invoked). -/
structure RetryOut (σ : Type) where
  result : Except String Unit
  sleeps : Nat
  state : σ
deriving Repr

/-- The loop body of retry (registry.go:194-200), with fuel = number of
remaining iterations. Each iteration invokes doFunc once (threading the
operation's state σ); a nil result returns success immediately; otherwise
the loop sleeps one second and continues, and after the last iteration the
aggregate error wrapping the last failure is returned. -/
def retryAux {σ : Type} (doFunc : σ → Option String × σ) :
    Nat → σ → Nat → Option String → RetryOut σ
  | 0, s, sleeps, lastErr =>
    ⟨Except.error ("Retried 5 times: " ++ errStr lastErr), sleeps, s⟩
  | fuel + 1, s, sleeps, _ =>
    match doFunc s with
    | (none, s2) => ⟨Except.ok (), sleeps, s2⟩
    | (some e, s2) => retryAux doFunc fuel s2 (sleeps + 1) (some e)

/-- retry (registry.go:192-202): run doFunc up to 5 times starting from the
operation state s0. -/
def retry {σ : Type} (doFunc : σ → Option String × σ) (s0 : σ) : RetryOut σ :=
  retryAux doFunc 5 s0 0 none

/-- Descriptor (regv1.Descriptor): metadata about a registry artifact. -/
structure Descriptor where
  mediaType : String
  size : Nat
  digest : String
deriving DecidableEq, Repr

/-- Opaque image handle (regv1.Image); this module never inspects it. -/
structure ImageVal where
  id : String
deriving DecidableEq, Repr

/-- Opaque image-index handle (regv1.ImageIndex). -/
structure IndexVal where
  id : String
deriving DecidableEq, Repr

/-- The go-containerregistry remote layer, an external collaborator. Each
field gives the result of the n-th invocation of that remote call within one
client operation (the index models the statefulness of the real network
across retry attempts); Option String results use none for a nil error. -/
structure RemoteEnv where
  get : String → Nat → Except String Descriptor
  image : String → Nat → Except String ImageVal
  index : String → Nat → Except String IndexVal
  write : String → ImageVal → Nat → Option String
  writeIndex : String → IndexVal → Nat → Option String
  tag : String → Descriptor → Nat → Option String
  list : String → Nat → Except String (List String)

/-- The go-containerregistry name-parsing layer, an external collaborator.
Each parser takes the reference string and whether the insecure option is in
the client's refOpts, and returns the normalized reference or an error. -/
structure NameEnv where
  parseReference : String → Bool → Except String String
  newTag : String → Bool → Except String String
  newDigest : String → Bool → Except String String
  newRepository : String → Bool → Except String String

/-- Modelled from the spec: the reference-parsing policy of the external
name-parsing library, which is not part of this repository's source. Per
the spec (sections 4.5 and 6 and testable property 7), parsing fails on a
malformed reference, and fails on a reference whose host is plain-HTTP-only
unless the insecure option is configured; otherwise it returns the
normalized reference. The predicates malformed and plainHTTPOnly abstract
which strings are malformed and which point at plain-HTTP-only hosts. -/
def specNameParse (malformed plainHTTPOnly : String → Bool)
    (s : String) (insecure : Bool) : Except String String :=
  if malformed s then Except.error ("could not parse reference: " ++ s)
  else if plainHTTPOnly s && !insecure then
    Except.error ("reference to insecure registry not allowed: " ++ s)
  else Except.ok s

/-- Modelled from the spec: the NameEnv in which every parser follows the
spec's reference-parsing policy specNameParse. -/
def specNameEnv (malformed plainHTTPOnly : String → Bool) : NameEnv :=
  ⟨specNameParse malformed plainHTTPOnly, specNameParse malformed plainHTTPOnly,
   specNameParse malformed plainHTTPOnly, specNameParse malformed plainHTTPOnly⟩

/-- Generic (registry.go:54-66): parse the reference with the client's
refOpts, then fetch the descriptor once. Returns the result together with
the number of remote calls made. -/
def Registry.Generic (i : Registry) (ne : NameEnv) (env : RemoteEnv)
    (ref : String) : Except String Descriptor × Nat :=
  match ne.parseReference ref i.refInsecure with
  | Except.error e => (Except.error e, 0)
  | Except.ok r =>
    match env.get r 0 with
    | Except.error e => (Except.error e, 1)
    | Except.ok desc => (Except.ok desc, 1)

/-- Image (registry.go:68-75): parse the reference, then fetch the image
handle once. Returns the result and the number of remote calls. -/
def Registry.Image (i : Registry) (ne : NameEnv) (env : RemoteEnv)
    (ref : String) : Except String ImageVal × Nat :=
  match ne.parseReference ref i.refInsecure with
  | Except.error e => (Except.error e, 0)
  | Except.ok r =>
    match env.image r 0 with
    | Except.error e => (Except.error e, 1)
    | Except.ok img => (Except.ok img, 1)

/-- Index (registry.go:93-100): parse the reference, then fetch the index
handle once. Returns the result and the number of remote calls. -/
def Registry.Index (i : Registry) (ne : NameEnv) (env : RemoteEnv)
    (ref : String) : Except String IndexVal × Nat :=
  match ne.parseReference ref i.refInsecure with
  | Except.error e => (Except.error e, 0)
  | Except.ok r =>
    match env.index r 0 with
    | Except.error e => (Except.error e, 1)
    | Except.ok idx => (Except.ok idx, 1)

/-- ListTags (registry.go:144-151): parse the repository, then list its
tags once. Returns the result and the number of remote calls. -/
def Registry.ListTags (i : Registry) (ne : NameEnv) (env : RemoteEnv)
    (repo : String) : Except String (List String) × Nat :=
  match ne.newRepository repo i.refInsecure with
  | Except.error e => (Except.error e, 0)
  | Except.ok r =>
    match env.list r 0 with
    | Except.error e => (Except.error e, 1)
    | Except.ok tags => (Except.ok tags, 1)

/-- WriteImage (registry.go:77-91): parse the reference (returning the parse
error unwrapped), run the remote write under retry, and wrap a final failure
with the prefixed message. Returns the result and how many times the remote
write was invoked. -/
def Registry.WriteImage (i : Registry) (ne : NameEnv) (env : RemoteEnv)
    (ref : String) (img : ImageVal) : Except String Unit × Nat :=
  match ne.parseReference ref i.refInsecure with
  | Except.error e => (Except.error e, 0)
  | Except.ok r =>
    let out := retry (fun (n : Nat) => (env.write r img n, n + 1)) 0
    match out.result with
    | Except.error e => (Except.error ("Writing image: " ++ e), out.state)
    | Except.ok _ => (Except.ok (), out.state)

/-- WriteIndex (registry.go:102-116): parse the reference, run the remote
index write under retry, and wrap a final failure with the prefixed
message. Returns the result and how many times the remote write was
invoked. -/
def Registry.WriteIndex (i : Registry) (ne : NameEnv) (env : RemoteEnv)
    (ref : String) (idx : IndexVal) : Except String Unit × Nat :=
  match ne.parseReference ref i.refInsecure with
  | Except.error e => (Except.error e, 0)
  | Except.ok r =>
    let out := retry (fun (n : Nat) => (env.writeIndex r idx n, n + 1)) 0
    match out.result with
    | Except.error e => (Except.error ("Writing image index: " ++ e), out.state)
    | Except.ok _ => (Except.ok (), out.state)

/-- State threaded through the retried body of WriteTag: how many times the
remote Get and the remote Tag have been invoked. -/
structure WTState where
  getCalls : Nat
  tagCalls : Nat
deriving DecidableEq, Repr

/-- The closure retried by WriteTag (registry.go:129-136): read the source
descriptor; on failure return that error (consuming the attempt without
touching the tag step); on success tag the destination with the
descriptor. -/
def writeTagBody (env : RemoteEnv) (dstRef srcRef : String)
    (s : WTState) : Option String × WTState :=
  match env.get srcRef s.getCalls with
  | Except.error e => (some e, ⟨s.getCalls + 1, s.tagCalls⟩)
  | Except.ok desc =>
    (env.tag dstRef desc s.tagCalls, ⟨s.getCalls + 1, s.tagCalls + 1⟩)

/-- WriteTag (registry.go:118-142): parse the destination tag and the source
digest (returning a parse error unwrapped), run the read-then-tag closure
under retry, and wrap a final failure with the prefixed message. Returns
the result and the counts of remote Get and Tag invocations. -/
def Registry.WriteTag (i : Registry) (ne : NameEnv) (env : RemoteEnv)
    (dstRef srcRef : String) : Except String Unit × WTState :=
  match ne.newTag dstRef i.refInsecure with
  | Except.error e => (Except.error e, ⟨0, 0⟩)
  | Except.ok dst =>
    match ne.newDigest srcRef i.refInsecure with
    | Except.error e => (Except.error e, ⟨0, 0⟩)
    | Except.ok src =>
      let out := retry (writeTagBody env dst src) ⟨0, 0⟩
      match out.result with
      | Except.error e => (Except.error ("Writing image tag: " ++ e), out.state)
      | Except.ok _ => (Except.ok (), out.state)

/-- A path whose file reads successfully and contains at least one valid
certificate, so that the certificate-pool loop passes over it. -/
def readsParses (readFile : String → Except String FileData) (q : String) : Prop :=
  ∃ d, readFile q = Except.ok d ∧ d.validPEM = true

/- Concrete fixtures used to instantiate the theorems. -/

/-- A concrete client value: the default transport with an empty pool,
verification enforced, and the insecure reference option not set. -/
def sampleRegistry : Registry :=
  ⟨⟨true, 30, 30, true, 100, 90, 10, 10, 1, CertPool.new, false⟩, ⟨"KBLD"⟩, false⟩

/-- A NameEnv in which no reference is malformed and no host is
plain-HTTP-only, so every parse succeeds and returns its input unchanged. -/
def okNameEnv : NameEnv := specNameEnv (fun _ => false) (fun _ => false)

/-- A RemoteEnv in which every remote call fails, each operation with its
own message. -/
def failRemoteEnv : RemoteEnv :=
  ⟨fun _ _ => Except.error "get fail",
   fun _ _ => Except.error "image fail",
   fun _ _ => Except.error "index fail",
   fun _ _ _ => some "write fail",
   fun _ _ _ => some "writeIndex fail",
   fun _ _ _ => some "tag fail",
   fun _ _ => Except.error "list fail"⟩

/-- A RemoteEnv in which reading a descriptor succeeds but the tag step
always fails. -/
def tagFailRemoteEnv : RemoteEnv :=
  ⟨fun _ _ => Except.ok ⟨"mt", 0, "sha256:feed"⟩,
   fun _ _ => Except.error "image fail",
   fun _ _ => Except.error "index fail",
   fun _ _ _ => some "write fail",
   fun _ _ _ => some "writeIndex fail",
   fun _ _ _ => some "tag fail",
   fun _ _ => Except.error "list fail"⟩

/-- A NameEnv in which only the tag string good:tag parses; every other
parse fails with a message naming its input. -/
def badNameEnv : NameEnv :=
  ⟨fun s _ => Except.error ("bad reference: " ++ s),
   fun s _ => if s = "good:tag" then Except.ok s else Except.error ("bad tag: " ++ s),
   fun s _ => Except.error ("bad digest: " ++ s),
   fun s _ => Except.error ("bad repository: " ++ s)⟩

/- Helper lemmas (shared). -/

theorem append_ne_self_of_length_pos (a b : String) (h : 0 < a.length) :
    a ++ b ≠ b := by
  intro he
  have h2 := congrArg String.length he
  rw [String.length_append] at h2
  omega

theorem readCAMsg_ne_parseCAMsg (p c : String) : readCAMsg p c ≠ parseCAMsg p := by
  intro h
  have h2 := congrArg (fun s => s.data.head?) h
  simp [readCAMsg, parseCAMsg, String.data_append] at h2

theorem addCACerts_skip (rf : String → Except String FileData) :
    ∀ (pre : List String) (pool : CertPool) (rest : List String),
      (∀ q ∈ pre, readsParses rf q) →
      ∃ pool2, addCACerts rf pool (pre ++ rest) = addCACerts rf pool2 rest := by
  intro pre
  induction pre with
  | nil => intro pool rest _; exact ⟨pool, rfl⟩
  | cons q pre ih =>
    intro pool rest hok
    obtain ⟨d, hd, hv⟩ := hok q (List.mem_cons_self q pre)
    have hstep : addCACerts rf pool ((q :: pre) ++ rest)
        = addCACerts rf ⟨pool.certs ++ [d]⟩ (pre ++ rest) := by
      simp [addCACerts, hd, CertPool.appendCertsFromPEM, hv]
    rw [hstep]
    exact ih ⟨pool.certs ++ [d]⟩ rest (fun q2 hq2 => hok q2 (List.mem_cons_of_mem _ hq2))

theorem retryAux_succeeds (res : Nat → Option String) (k : Nat) :
    ∀ (fuel c sleeps : Nat) (le : Option String),
      k < fuel →
      (∀ j, j < k → res (c + j) ≠ none) →
      res (c + k) = none →
      retryAux (fun n => (res n, n + 1)) fuel c sleeps le =
        ⟨Except.ok (), sleeps + k, c + k + 1⟩ := by
  induction k with
  | zero =>
    intro fuel c sleeps le hk hfail hsucc
    obtain ⟨m, rfl⟩ : ∃ m, fuel = m + 1 := ⟨fuel - 1, by omega⟩
    simp only [Nat.add_zero] at hsucc
    simp [retryAux, hsucc]
  | succ k ih =>
    intro fuel c sleeps le hk hfail hsucc
    obtain ⟨m, rfl⟩ : ∃ m, fuel = m + 1 := ⟨fuel - 1, by omega⟩
    have h0 : res c ≠ none := by
      have := hfail 0 (Nat.succ_pos k)
      simpa using this
    obtain ⟨e, he⟩ : ∃ e, res c = some e := by
      cases hres : res c with
      | none => exact absurd hres h0
      | some e => exact ⟨e, rfl⟩
    simp only [retryAux, he]
    have step := ih m (c + 1) (sleeps + 1) (some e) (by omega)
      (fun j hj => by
        have := hfail (j + 1) (by omega)
        have harr : c + (j + 1) = c + 1 + j := by omega
        rwa [harr] at this)
      (by
        have harr : c + (k + 1) = c + 1 + k := by omega
        rwa [harr] at hsucc)
    rw [step]
    have e1 : sleeps + 1 + k = sleeps + (k + 1) := by omega
    have e2 : c + 1 + k + 1 = c + (k + 1) + 1 := by omega
    rw [e1, e2]

theorem retryAux_all_fail (res : Nat → Option String) (f : Nat → String)
    (h : ∀ n, res n = some (f n)) (fuel : Nat) :
    ∀ (c sleeps : Nat) (le : Option String), 0 < fuel →
      retryAux (fun n => (res n, n + 1)) fuel c sleeps le =
        ⟨Except.error ("Retried 5 times: " ++ f (c + fuel - 1)),
          sleeps + fuel, c + fuel⟩ := by
  induction fuel with
  | zero => intro c sleeps le h0; omega
  | succ m ih =>
    intro c sleeps le _
    simp only [retryAux, h c]
    cases m with
    | zero => simp [retryAux, errStr]
    | succ m2 =>
      rw [ih (c + 1) (sleeps + 1) (some (f c)) (Nat.succ_pos m2)]
      have e1 : c + 1 + (m2 + 1) - 1 = c + (m2 + 1 + 1) - 1 := by omega
      have e2 : sleeps + 1 + (m2 + 1) = sleeps + (m2 + 1 + 1) := by omega
      have e3 : c + 1 + (m2 + 1) = c + (m2 + 1 + 1) := by omega
      rw [e1, e2, e3]

theorem retry_nat_all_fail (w : Nat → Option String) (f : Nat → String)
    (h : ∀ n, w n = some (f n)) :
    retry (fun n => (w n, n + 1)) 0 =
      ⟨Except.error ("Retried 5 times: " ++ f 4), 5, 5⟩ := by
  have := retryAux_all_fail w f h 5 0 0 none (by omega)
  simpa [retry] using this

theorem retry_writeTagBody_get_fail (env : RemoteEnv) (dst src : String)
    (f : Nat → String) (h : ∀ n, env.get src n = Except.error (f n)) :
    retry (writeTagBody env dst src) ⟨0, 0⟩ =
      ⟨Except.error ("Retried 5 times: " ++ f 4), 5, ⟨5, 0⟩⟩ := by
  simp [retry, retryAux, writeTagBody, h 0, h 1, h 2, h 3, h 4, errStr]

theorem retry_writeTagBody_tag_fail (env : RemoteEnv) (dst src : String)
    (d : Nat → Descriptor) (g : Nat → String)
    (hget : ∀ n, env.get src n = Except.ok (d n))
    (htag : ∀ desc n, env.tag dst desc n = some (g n)) :
    retry (writeTagBody env dst src) ⟨0, 0⟩ =
      ⟨Except.error ("Retried 5 times: " ++ g 4), 5, ⟨5, 5⟩⟩ := by
  simp [retry, retryAux, writeTagBody, hget 0, hget 1, hget 2, hget 3, hget 4,
    htag, errStr]

/- Claim theorems. -/

/-- C1 counterexample: with the zero-value configuration (every field of
Opts omitted, so VerifyCerts carries its default value false), the transport
built by newHTTPTransport has insecureSkipVerify = true, i.e. server
certificate verification is skipped. This refutes the claim's assertion
that a default/omitted verify-certificates flag means verification is
enforced. -/
theorem c1_default_skips_verification :
    (newHTTPTransport Opts.zero (fun _ => Except.error "unused")
        (some CertPool.new)).map (fun t => t.insecureSkipVerify) =
      Except.ok true := by
  rfl

/-- C1 (amended): for every configuration, the transport built by
newHTTPTransport skips server certificate verification if and only if the
configuration's VerifyCerts flag is false; since the flag's zero value is
false, a default/omitted flag means verification is skipped, and enforcing
verification requires explicitly setting VerifyCerts to true. -/
theorem c1_skip_iff_not_verifyCerts (opts : Opts)
    (rf : String → Except String FileData) (sp : Option CertPool)
    (t : Transport) (h : newHTTPTransport opts rf sp = Except.ok t) :
    (t.insecureSkipVerify = true ↔ opts.VerifyCerts = false) ∧
    (opts = Opts.zero → t.insecureSkipVerify = true) := by
  simp only [newHTTPTransport] at h
  split at h
  · cases h
  · cases h
    refine ⟨by simp, fun hz => by rw [hz]; rfl⟩

/-- C1 witness: the amended theorem applied to the zero-value configuration
and its concretely computed transport. -/
theorem c1_skip_iff_not_verifyCerts_witness :
    ((Transport.mk true 30 30 true 100 90 10 10 1 CertPool.new true).insecureSkipVerify
        = true ↔ Opts.zero.VerifyCerts = false) ∧
    (Opts.zero = Opts.zero →
      (Transport.mk true 30 30 true 100 90 10 10 1 CertPool.new
          true).insecureSkipVerify = true) :=
  c1_skip_iff_not_verifyCerts Opts.zero (fun _ => Except.error "unused")
    (some CertPool.new) _ rfl

/-- C2 counterexample: for an operation that fails on every attempt, retry
performs 5 one-second sleeps, not the 4 the claim states (the loop sleeps
after every failed attempt, including the fifth). -/
theorem c2_five_sleeps_not_four :
    (retry (fun (n : Nat) => (some "network timeout", n + 1)) 0).sleeps = 5 ∧
    (retry (fun (n : Nat) => (some "network timeout", n + 1)) 0).sleeps ≠ 4 := by
  exact ⟨by decide, by decide⟩

/-- C2 (amended): for every operation that fails on all attempts, retry
invokes the operation exactly 5 times, sleeps 1 second after every failed
attempt (5 sleeps in total, not 4), and returns a single error reporting
"Retried 5 times" that wraps only the last (5th) failure's cause,
discarding the earlier failures. -/
theorem c2_retry_all_fail (f : Nat → String) :
    retry (fun n => (some (f n), n + 1)) 0 =
      ⟨Except.error ("Retried 5 times: " ++ f 4), 5, 5⟩ :=
  retry_nat_all_fail (fun n => some (f n)) f (fun _ => rfl)

/-- C3: for every fallible operation that fails exactly k times with k < 5
and then succeeds, retry returns success on the first non-error result, the
operation is invoked exactly k + 1 times, and the total enforced sleep
(1 second per sleep) is at least k seconds. -/
theorem c3_retry_succeeds_after_k (res : Nat → Option String) (k : Nat)
    (hk : k < 5) (hfail : ∀ j, j < k → res j ≠ none) (hsucc : res k = none) :
    (retry (fun n => (res n, n + 1)) 0).result = Except.ok () ∧
    (retry (fun n => (res n, n + 1)) 0).state = k + 1 ∧
    k ≤ (retry (fun n => (res n, n + 1)) 0).sleeps * 1 := by
  have h := retryAux_succeeds res k 5 0 0 none hk
    (fun j hj => by simpa using hfail j hj) (by simpa using hsucc)
  rw [retry, h]
  simp

/-- C3 witness: an operation failing exactly twice then succeeding is
invoked 3 times, succeeds, and enforces at least 2 seconds of sleep. -/
theorem c3_retry_succeeds_after_k_witness :
    (retry (fun n => ((fun m => if m < 2 then some "boom" else none) n, n + 1))
        0).result = Except.ok () ∧
    (retry (fun n => ((fun m => if m < 2 then some "boom" else none) n, n + 1))
        0).state = 2 + 1 ∧
    2 ≤ (retry (fun n => ((fun m => if m < 2 then some "boom" else none) n, n + 1))
        0).sleeps * 1 :=
  c3_retry_succeeds_after_k (fun m => if m < 2 then some "boom" else none) 2
    (by decide) (fun j hj => by simp [hj]) (by decide)

/-- C10: retry sleeps once after every failed attempt, including the final
one: when all 5 attempts fail it performs exactly 5 one-second sleeps before
returning the aggregated error, and when attempt k + 1 succeeds it performs
exactly k sleeps, with no sleep after the successful attempt. -/
theorem c10_sleep_after_every_failure (res resS : Nat → Option String)
    (f : Nat → String) (k : Nat)
    (hall : ∀ n, res n = some (f n))
    (hk : k < 5) (hfail : ∀ j, j < k → resS j ≠ none) (hsucc : resS k = none) :
    (retry (fun n => (res n, n + 1)) 0).sleeps = 5 ∧
    (retry (fun n => (resS n, n + 1)) 0).sleeps = k := by
  constructor
  · rw [retry_nat_all_fail res f hall]
  · have h := retryAux_succeeds resS k 5 0 0 none hk
      (fun j hj => by simpa using hfail j hj) (by simpa using hsucc)
    rw [retry, h]
    simp

/-- C10 witness: an always-failing operation causes 5 sleeps; an operation
failing exactly 3 times then succeeding causes exactly 3 sleeps. -/
theorem c10_sleep_after_every_failure_witness :
    (retry (fun n => ((fun m => some ("err " ++ toString m)) n, n + 1)) 0).sleeps
        = 5 ∧
    (retry (fun n => ((fun m => if m < 3 then some "flaky" else none) n, n + 1))
        0).sleeps = 3 :=
  c10_sleep_after_every_failure (fun m => some ("err " ++ toString m))
    (fun m => if m < 3 then some "flaky" else none)
    (fun m => "err " ++ toString m) 3 (fun _ => rfl) (by decide)
    (fun j hj => by simp [hj]) (by decide)

/-- C4: for every ordered list of CA certificate paths in which the paths
before p read and parse successfully, the certificate-pool loop fails with
the ReadError (naming the path and the underlying cause) when p cannot be
read, fails with the ParseError (a message distinct from the ReadError,
naming the path) when p contains no valid certificates, and in either case
returns that first error alone, independent of the remaining paths (no
aggregation of errors from multiple files). -/
theorem c4_certpool_first_error (rf : String → Except String FileData)
    (pre : List String) (p : String) (rest : List String) (pool : CertPool)
    (hpre : ∀ q ∈ pre, readsParses rf q) :
    (∀ cause, rf p = Except.error cause →
      addCACerts rf pool (pre ++ p :: rest) = Except.error (readCAMsg p cause)) ∧
    (∀ d, rf p = Except.ok d → d.validPEM = false →
      addCACerts rf pool (pre ++ p :: rest) = Except.error (parseCAMsg p)) ∧
    (∀ cause, readCAMsg p cause ≠ parseCAMsg p) := by
  obtain ⟨pool2, hskip⟩ := addCACerts_skip rf pre pool (p :: rest) hpre
  refine ⟨?_, ?_, fun cause => readCAMsg_ne_parseCAMsg p cause⟩
  · intro cause hc
    rw [hskip]
    simp [addCACerts, hc]
  · intro d hd hv
    rw [hskip]
    simp [addCACerts, hd, CertPool.appendCertsFromPEM, hv]

/-- C4 witness: with a file system where path a reads and parses fine, path
b is unreadable, and path c reads but parses to no certificate, the loop on
the lists a, b, rest and a, c, rest produces exactly the ReadError for b and
the ParseError for c, and the two messages differ. -/
theorem c4_certpool_first_error_witness :
    ((∀ cause,
        (fun q => if q = "a" then Except.ok (⟨"pem", true⟩ : FileData)
          else if q = "c" then Except.ok (⟨"junk", false⟩ : FileData)
          else Except.error "open: no such file") "b" = Except.error cause →
        addCACerts
          (fun q => if q = "a" then Except.ok (⟨"pem", true⟩ : FileData)
            else if q = "c" then Except.ok (⟨"junk", false⟩ : FileData)
            else Except.error "open: no such file")
          CertPool.new (["a"] ++ "b" :: ["z"]) = Except.error (readCAMsg "b" cause)) ∧
      (∀ d,
        (fun q => if q = "a" then Except.ok (⟨"pem", true⟩ : FileData)
          else if q = "c" then Except.ok (⟨"junk", false⟩ : FileData)
          else Except.error "open: no such file") "b" = Except.ok d →
        d.validPEM = false →
        addCACerts
          (fun q => if q = "a" then Except.ok (⟨"pem", true⟩ : FileData)
            else if q = "c" then Except.ok (⟨"junk", false⟩ : FileData)
            else Except.error "open: no such file")
          CertPool.new (["a"] ++ "b" :: ["z"]) = Except.error (parseCAMsg "b")) ∧
      (∀ cause, readCAMsg "b" cause ≠ parseCAMsg "b")) ∧
    (∀ d,
      (fun q => if q = "a" then Except.ok (⟨"pem", true⟩ : FileData)
        else if q = "c" then Except.ok (⟨"junk", false⟩ : FileData)
        else Except.error "open: no such file") "c" = Except.ok d →
      d.validPEM = false →
      addCACerts
        (fun q => if q = "a" then Except.ok (⟨"pem", true⟩ : FileData)
          else if q = "c" then Except.ok (⟨"junk", false⟩ : FileData)
          else Except.error "open: no such file")
        CertPool.new (["a"] ++ "c" :: ["z"]) = Except.error (parseCAMsg "c")) :=
  ⟨c4_certpool_first_error
      (fun q => if q = "a" then Except.ok (⟨"pem", true⟩ : FileData)
        else if q = "c" then Except.ok (⟨"junk", false⟩ : FileData)
        else Except.error "open: no such file")
      ["a"] "b" ["z"] CertPool.new
      (fun q hq => by
        simp at hq
        subst hq
        exact ⟨⟨"pem", true⟩, rfl, rfl⟩),
    (c4_certpool_first_error
      (fun q => if q = "a" then Except.ok (⟨"pem", true⟩ : FileData)
        else if q = "c" then Except.ok (⟨"junk", false⟩ : FileData)
        else Except.error "open: no such file")
      ["a"] "c" ["z"] CertPool.new
      (fun q hq => by
        simp at hq
        subst hq
        exact ⟨⟨"pem", true⟩, rfl, rfl⟩)).2.1⟩

/-- C5: for every configuration whose CA certificate path list contains a
path p that cannot be read (after paths that load fine), NewRegistry fails
with the ReadError naming exactly p and the underlying cause, and never
returns a client: construction-time certificate-loading errors abort client
creation entirely. -/
theorem c5_newRegistry_aborts_on_bad_path (opts : Opts)
    (rf : String → Except String FileData) (sp : Option CertPool)
    (pre : List String) (p : String) (rest : List String) (cause : String)
    (hpaths : opts.CACertPaths = pre ++ p :: rest)
    (hpre : ∀ q ∈ pre, readsParses rf q)
    (hp : rf p = Except.error cause) :
    NewRegistry opts rf sp = Except.error (readCAMsg p cause) ∧
    ∀ r, NewRegistry opts rf sp ≠ Except.ok r := by
  obtain ⟨pool2, hskip⟩ := addCACerts_skip rf pre
    (match sp with | some q => q | none => CertPool.new) (p :: rest) hpre
  have htr : newHTTPTransport opts rf sp = Except.error (readCAMsg p cause) := by
    simp only [newHTTPTransport, hpaths]
    rw [if_pos (by simp)]
    rw [hskip]
    simp [addCACerts, hp]
  constructor
  · simp [NewRegistry, htr]
  · intro r hr
    simp [NewRegistry, htr] at hr

/-- C5 witness: a configuration whose only CA path is missing makes
NewRegistry fail with the ReadError naming that path, and no client is
returned. -/
theorem c5_newRegistry_aborts_on_bad_path_witness :
    NewRegistry ⟨["missing"], true, false, "KBLD"⟩
        (fun _ => Except.error "open missing: no such file or directory") none =
      Except.error (readCAMsg "missing" "open missing: no such file or directory") ∧
    ∀ r, NewRegistry ⟨["missing"], true, false, "KBLD"⟩
        (fun _ => Except.error "open missing: no such file or directory") none ≠
      Except.ok r :=
  c5_newRegistry_aborts_on_bad_path ⟨["missing"], true, false, "KBLD"⟩
    (fun _ => Except.error "open missing: no such file or directory") none
    [] "missing" [] "open missing: no such file or directory" rfl
    (fun q hq => absurd hq (List.not_mem_nil q)) rfl

/-- C6: WriteTag reads the source descriptor and then tags it at the
destination, both sub-steps inside a single retry attempt. When the source
digest never resolves to a descriptor, the tag step is never attempted
(tagCalls = 0), the read restarts on each of the 5 attempts (getCalls = 5),
and the call fails with the wrapped "Writing image tag" error after
exhausting retries; when the read succeeds but the tag step fails, that
failure consumes the attempt and the next attempt restarts from the read
(getCalls = 5 and tagCalls = 5). -/
theorem c6_writeTag_read_then_tag (reg : Registry) (ne : NameEnv)
    (env env2 : RemoteEnv) (dstRef srcRef dst src : String)
    (f g : Nat → String) (d : Nat → Descriptor)
    (hdst : ne.newTag dstRef reg.refInsecure = Except.ok dst)
    (hsrc : ne.newDigest srcRef reg.refInsecure = Except.ok src)
    (hget : ∀ n, env.get src n = Except.error (f n))
    (hget2 : ∀ n, env2.get src n = Except.ok (d n))
    (htag2 : ∀ desc n, env2.tag dst desc n = some (g n)) :
    Registry.WriteTag reg ne env dstRef srcRef =
      (Except.error ("Writing image tag: " ++ ("Retried 5 times: " ++ f 4)),
        ⟨5, 0⟩) ∧
    Registry.WriteTag reg ne env2 dstRef srcRef =
      (Except.error ("Writing image tag: " ++ ("Retried 5 times: " ++ g 4)),
        ⟨5, 5⟩) := by
  constructor
  · simp [Registry.WriteTag, hdst, hsrc,
      retry_writeTagBody_get_fail env dst src f hget]
  · simp [Registry.WriteTag, hdst, hsrc,
      retry_writeTagBody_tag_fail env2 dst src d g hget2 htag2]

/-- C6 witness: with parses succeeding, an always-failing descriptor read
never reaches the tag step and yields the wrapped error, while a failing
tag step restarts from the read on every attempt. -/
theorem c6_writeTag_read_then_tag_witness :
    Registry.WriteTag sampleRegistry okNameEnv failRemoteEnv
        "dst.example/repo:v1" "src.example/repo@sha256:abc" =
      (Except.error ("Writing image tag: " ++ ("Retried 5 times: " ++ "get fail")),
        ⟨5, 0⟩) ∧
    Registry.WriteTag sampleRegistry okNameEnv tagFailRemoteEnv
        "dst.example/repo:v1" "src.example/repo@sha256:abc" =
      (Except.error ("Writing image tag: " ++ ("Retried 5 times: " ++ "tag fail")),
        ⟨5, 5⟩) :=
  c6_writeTag_read_then_tag sampleRegistry okNameEnv failRemoteEnv
    tagFailRemoteEnv "dst.example/repo:v1" "src.example/repo@sha256:abc"
    "dst.example/repo:v1" "src.example/repo@sha256:abc"
    (fun _ => "get fail") (fun _ => "tag fail")
    (fun _ => ⟨"mt", 0, "sha256:feed"⟩)
    rfl rfl (fun _ => rfl) (fun _ => rfl) (fun _ _ => rfl)

/-- C7: when parsing succeeds, a failing read operation (get descriptor,
get image, get index, list tags) returns the underlying error verbatim
after exactly one remote call (no automatic retry), while failing write and
tag operations return their error wrapped with the operation-specific
message, "Writing image: ", "Writing image index: " or
"Writing image tag: ", preserving the underlying (last) cause; no error is
swallowed. -/
theorem c7_read_verbatim_write_wrapped (reg : Registry) (ne : NameEnv)
    (env : RemoteEnv) (ref r dstRef srcRef dst src : String)
    (img : ImageVal) (idx : IndexVal) (eG eI eX eL : String)
    (fI fX fT : Nat → String)
    (hparse : ne.parseReference ref reg.refInsecure = Except.ok r)
    (hrepo : ne.newRepository ref reg.refInsecure = Except.ok r)
    (hdst : ne.newTag dstRef reg.refInsecure = Except.ok dst)
    (hsrc : ne.newDigest srcRef reg.refInsecure = Except.ok src)
    (hget : env.get r 0 = Except.error eG)
    (himg : env.image r 0 = Except.error eI)
    (hidx : env.index r 0 = Except.error eX)
    (hlist : env.list r 0 = Except.error eL)
    (hwr : ∀ n, env.write r img n = some (fI n))
    (hwx : ∀ n, env.writeIndex r idx n = some (fX n))
    (hgT : ∀ n, env.get src n = Except.error (fT n)) :
    Registry.Generic reg ne env ref = (Except.error eG, 1) ∧
    Registry.Image reg ne env ref = (Except.error eI, 1) ∧
    Registry.Index reg ne env ref = (Except.error eX, 1) ∧
    Registry.ListTags reg ne env ref = (Except.error eL, 1) ∧
    Registry.WriteImage reg ne env ref img =
      (Except.error ("Writing image: " ++ ("Retried 5 times: " ++ fI 4)), 5) ∧
    Registry.WriteIndex reg ne env ref idx =
      (Except.error ("Writing image index: " ++ ("Retried 5 times: " ++ fX 4)),
        5) ∧
    Registry.WriteTag reg ne env dstRef srcRef =
      (Except.error ("Writing image tag: " ++ ("Retried 5 times: " ++ fT 4)),
        ⟨5, 0⟩) := by
  have hw := retry_nat_all_fail (fun n => env.write r img n) fI hwr
  have hx := retry_nat_all_fail (fun n => env.writeIndex r idx n) fX hwx
  have ht := retry_writeTagBody_get_fail env dst src fT hgT
  refine ⟨?_, ?_, ?_, ?_, ?_, ?_, ?_⟩
  · simp [Registry.Generic, hparse, hget]
  · simp [Registry.Image, hparse, himg]
  · simp [Registry.Index, hparse, hidx]
  · simp [Registry.ListTags, hrepo, hlist]
  · simp [Registry.WriteImage, hparse, hw]
  · simp [Registry.WriteIndex, hparse, hx]
  · simp [Registry.WriteTag, hdst, hsrc, ht]

/-- C7 witness: against a remote layer in which every call fails with its
own message, the four read operations return those messages verbatim after
one call each, and the three write/tag operations return their wrapped
messages after five attempts. -/
theorem c7_read_verbatim_write_wrapped_witness :
    Registry.Generic sampleRegistry okNameEnv failRemoteEnv
        "example.com/repo:v1" = (Except.error "get fail", 1) ∧
    Registry.Image sampleRegistry okNameEnv failRemoteEnv
        "example.com/repo:v1" = (Except.error "image fail", 1) ∧
    Registry.Index sampleRegistry okNameEnv failRemoteEnv
        "example.com/repo:v1" = (Except.error "index fail", 1) ∧
    Registry.ListTags sampleRegistry okNameEnv failRemoteEnv
        "example.com/repo:v1" = (Except.error "list fail", 1) ∧
    Registry.WriteImage sampleRegistry okNameEnv failRemoteEnv
        "example.com/repo:v1" ⟨"img"⟩ =
      (Except.error ("Writing image: " ++ ("Retried 5 times: " ++ "write fail")),
        5) ∧
    Registry.WriteIndex sampleRegistry okNameEnv failRemoteEnv
        "example.com/repo:v1" ⟨"idx"⟩ =
      (Except.error
        ("Writing image index: " ++ ("Retried 5 times: " ++ "writeIndex fail")),
        5) ∧
    Registry.WriteTag sampleRegistry okNameEnv failRemoteEnv
        "example.com/repo:v2" "example.com/repo@sha256:abc" =
      (Except.error ("Writing image tag: " ++ ("Retried 5 times: " ++ "get fail")),
        ⟨5, 0⟩) :=
  c7_read_verbatim_write_wrapped sampleRegistry okNameEnv failRemoteEnv
    "example.com/repo:v1" "example.com/repo:v1" "example.com/repo:v2"
    "example.com/repo@sha256:abc" "example.com/repo:v2"
    "example.com/repo@sha256:abc" ⟨"img"⟩ ⟨"idx"⟩
    "get fail" "image fail" "index fail" "list fail"
    (fun _ => "write fail") (fun _ => "writeIndex fail") (fun _ => "get fail")
    rfl rfl rfl rfl rfl rfl rfl rfl
    (fun _ => rfl) (fun _ => rfl) (fun _ => rfl)

/-- C8: under the reference-parsing policy modelled from the spec, every
client operation first normalizes its reference argument(s) and fails on
malformed or policy-violating input with zero remote calls; in particular,
with the insecure option unset (the default), a reference pointing at a
plain-HTTP-only host fails reference parsing before any network call is
attempted. -/
theorem c8_reference_policy_before_network
    (malformed plainHTTPOnly : String → Bool) (reg : Registry)
    (env : RemoteEnv) (ref : String) (img : ImageVal) (idx : IndexVal)
    (hins : reg.refInsecure = false)
    (hbad : malformed ref = true ∨
      (malformed ref = false ∧ plainHTTPOnly ref = true)) :
    (∃ e, Registry.Generic reg (specNameEnv malformed plainHTTPOnly) env ref =
      (Except.error e, 0)) ∧
    (∃ e, Registry.Image reg (specNameEnv malformed plainHTTPOnly) env ref =
      (Except.error e, 0)) ∧
    (∃ e, Registry.Index reg (specNameEnv malformed plainHTTPOnly) env ref =
      (Except.error e, 0)) ∧
    (∃ e, Registry.ListTags reg (specNameEnv malformed plainHTTPOnly) env ref =
      (Except.error e, 0)) ∧
    (∃ e, Registry.WriteImage reg (specNameEnv malformed plainHTTPOnly) env ref
      img = (Except.error e, 0)) ∧
    (∃ e, Registry.WriteIndex reg (specNameEnv malformed plainHTTPOnly) env ref
      idx = (Except.error e, 0)) ∧
    (∃ e, Registry.WriteTag reg (specNameEnv malformed plainHTTPOnly) env ref
      ref = (Except.error e, ⟨0, 0⟩)) := by
  obtain ⟨msg, hp⟩ :
      ∃ msg, specNameParse malformed plainHTTPOnly ref reg.refInsecure =
        Except.error msg := by
    rcases hbad with hm | ⟨hm, hph⟩
    · exact ⟨"could not parse reference: " ++ ref, by simp [specNameParse, hm]⟩
    · exact ⟨"reference to insecure registry not allowed: " ++ ref,
        by simp [specNameParse, hm, hph, hins]⟩
  exact ⟨⟨msg, by simp [Registry.Generic, specNameEnv, hp]⟩,
    ⟨msg, by simp [Registry.Image, specNameEnv, hp]⟩,
    ⟨msg, by simp [Registry.Index, specNameEnv, hp]⟩,
    ⟨msg, by simp [Registry.ListTags, specNameEnv, hp]⟩,
    ⟨msg, by simp [Registry.WriteImage, specNameEnv, hp]⟩,
    ⟨msg, by simp [Registry.WriteIndex, specNameEnv, hp]⟩,
    ⟨msg, by simp [Registry.WriteTag, specNameEnv, hp]⟩⟩

/-- C8 witness: with every host plain-HTTP-only, nothing malformed, and the
insecure option unset, each of the seven operations fails with zero remote
calls. -/
theorem c8_reference_policy_before_network_witness :
    (∃ e, Registry.Generic sampleRegistry
        (specNameEnv (fun _ => false) (fun _ => true)) failRemoteEnv
        "plainhttp.local/repo:v1" = (Except.error e, 0)) ∧
    (∃ e, Registry.Image sampleRegistry
        (specNameEnv (fun _ => false) (fun _ => true)) failRemoteEnv
        "plainhttp.local/repo:v1" = (Except.error e, 0)) ∧
    (∃ e, Registry.Index sampleRegistry
        (specNameEnv (fun _ => false) (fun _ => true)) failRemoteEnv
        "plainhttp.local/repo:v1" = (Except.error e, 0)) ∧
    (∃ e, Registry.ListTags sampleRegistry
        (specNameEnv (fun _ => false) (fun _ => true)) failRemoteEnv
        "plainhttp.local/repo:v1" = (Except.error e, 0)) ∧
    (∃ e, Registry.WriteImage sampleRegistry
        (specNameEnv (fun _ => false) (fun _ => true)) failRemoteEnv
        "plainhttp.local/repo:v1" ⟨"img"⟩ = (Except.error e, 0)) ∧
    (∃ e, Registry.WriteIndex sampleRegistry
        (specNameEnv (fun _ => false) (fun _ => true)) failRemoteEnv
        "plainhttp.local/repo:v1" ⟨"idx"⟩ = (Except.error e, 0)) ∧
    (∃ e, Registry.WriteTag sampleRegistry
        (specNameEnv (fun _ => false) (fun _ => true)) failRemoteEnv
        "plainhttp.local/repo:v1" "plainhttp.local/repo:v1" =
      (Except.error e, ⟨0, 0⟩)) :=
  c8_reference_policy_before_network (fun _ => false) (fun _ => true)
    sampleRegistry failRemoteEnv "plainhttp.local/repo:v1" ⟨"img"⟩ ⟨"idx"⟩
    rfl (Or.inr ⟨rfl, rfl⟩)

/-- C9: in WriteImage, WriteIndex and WriteTag, a failure to parse a
reference argument is returned exactly as produced by the parser, which in
particular is not the operation-label-prefixed error, and the retried
remote write is attempted zero times. -/
theorem c9_parse_error_unwrapped_no_retry (reg : Registry) (ne : NameEnv)
    (env : RemoteEnv) (refA dstB dstC srcC dC : String)
    (img : ImageVal) (idx : IndexVal) (eA eB eC : String)
    (hA : ne.parseReference refA reg.refInsecure = Except.error eA)
    (hB : ne.newTag dstB reg.refInsecure = Except.error eB)
    (hC1 : ne.newTag dstC reg.refInsecure = Except.ok dC)
    (hC2 : ne.newDigest srcC reg.refInsecure = Except.error eC) :
    (Registry.WriteImage reg ne env refA img = (Except.error eA, 0) ∧
      Except.error ("Writing image: " ++ eA) ≠
        (Except.error eA : Except String Unit)) ∧
    (Registry.WriteIndex reg ne env refA idx = (Except.error eA, 0) ∧
      Except.error ("Writing image index: " ++ eA) ≠
        (Except.error eA : Except String Unit)) ∧
    (Registry.WriteTag reg ne env dstB srcC = (Except.error eB, ⟨0, 0⟩) ∧
      Registry.WriteTag reg ne env dstC srcC = (Except.error eC, ⟨0, 0⟩) ∧
      Except.error ("Writing image tag: " ++ eC) ≠
        (Except.error eC : Except String Unit)) := by
  refine ⟨⟨?_, ?_⟩, ⟨?_, ?_⟩, ⟨?_, ?_, ?_⟩⟩
  · simp [Registry.WriteImage, hA]
  · intro he
    exact append_ne_self_of_length_pos "Writing image: " eA (by decide)
      (Except.error.inj he)
  · simp [Registry.WriteIndex, hA]
  · intro he
    exact append_ne_self_of_length_pos "Writing image index: " eA (by decide)
      (Except.error.inj he)
  · simp [Registry.WriteTag, hB]
  · simp [Registry.WriteTag, hC1, hC2]
  · intro he
    exact append_ne_self_of_length_pos "Writing image tag: " eC (by decide)
      (Except.error.inj he)

/-- C9 witness: against a parser that rejects the supplied references, the
three write operations return the parse errors unwrapped with zero write
attempts. -/
theorem c9_parse_error_unwrapped_no_retry_witness :
    (Registry.WriteImage sampleRegistry badNameEnv failRemoteEnv "??" ⟨"img"⟩ =
        (Except.error ("bad reference: " ++ "??"), 0) ∧
      Except.error ("Writing image: " ++ ("bad reference: " ++ "??")) ≠
        (Except.error ("bad reference: " ++ "??") : Except String Unit)) ∧
    (Registry.WriteIndex sampleRegistry badNameEnv failRemoteEnv "??" ⟨"idx"⟩ =
        (Except.error ("bad reference: " ++ "??"), 0) ∧
      Except.error ("Writing image index: " ++ ("bad reference: " ++ "??")) ≠
        (Except.error ("bad reference: " ++ "??") : Except String Unit)) ∧
    (Registry.WriteTag sampleRegistry badNameEnv failRemoteEnv "bad:tag"
          "src@sha256:abc" =
        (Except.error ("bad tag: " ++ "bad:tag"), ⟨0, 0⟩) ∧
      Registry.WriteTag sampleRegistry badNameEnv failRemoteEnv "good:tag"
          "src@sha256:abc" =
        (Except.error ("bad digest: " ++ "src@sha256:abc"), ⟨0, 0⟩) ∧
      Except.error ("Writing image tag: " ++ ("bad digest: " ++ "src@sha256:abc")) ≠
        (Except.error ("bad digest: " ++ "src@sha256:abc") : Except String Unit)) :=
  c9_parse_error_unwrapped_no_retry sampleRegistry badNameEnv failRemoteEnv
    "??" "bad:tag" "good:tag" "src@sha256:abc" "good:tag" ⟨"img"⟩ ⟨"idx"⟩
    ("bad reference: " ++ "??") ("bad tag: " ++ "bad:tag")
    ("bad digest: " ++ "src@sha256:abc") rfl rfl rfl rfl

end KbldRegistry
